import Mathlib

/-!
# Banking web client (`banking.js`): embedding and verified properties

The browser client keeps two globals (`currentUser`, `currentCredentials`), toggles the
`hidden` class of three page sections, appends notifications to the `messages` container
and talks to the REST API through `makeApiCall`.  Each user-facing operation is embedded
as a function from the page state (and the outcome of its network call, when it makes one)
to the next page state.  Operations are modelled as running to completion one after the
other; the 5 second removal timer of a notification is not modelled, so `messages` is the
ordered list of notifications posted so far.

JavaScript strings are Lean strings.  Numbers are kept as the decimal they were read from
together with the test for rounding to zero as an IEEE double, which is all the code asks
of them; engine-defined conversions (`toFixed`, `toLocaleString`, date parsing, error
texts) are fields of `Builtins`.
-/

namespace Banking

/-! ## Strings -/

/-- White space and line terminators, as skipped by `String.prototype.trim` and `parseFloat`. -/
def isStrWhiteSpaceChar (c : Char) : Bool :=
  let n := c.toNat
  n = 0x09 || n = 0x0A || n = 0x0B || n = 0x0C || n = 0x0D || n = 0x20 || n = 0xA0
    || n = 0x1680 || (0x2000 ≤ n && n ≤ 0x200A) || n = 0x2028 || n = 0x2029
    || n = 0x202F || n = 0x205F || n = 0x3000 || n = 0xFEFF

/-- The method `String.prototype.trim`: white space removed at both ends. -/
def jsTrim (s : String) : String :=
  ⟨((s.data.dropWhile isStrWhiteSpaceChar).reverse.dropWhile isStrWhiteSpaceChar).reverse⟩

/-- One character of `String.prototype.toLowerCase`.  Only `A`..`Z` are mapped and other
code points are kept.  This does not change whether the ASCII word `deposit` occurs in the
result: the engine maps a code point outside ASCII to code points outside ASCII, except
U+212A to `k` and U+0130 to `i` followed by U+0307, and neither can add or remove an
occurrence of that word. -/
def lowerChar (c : Char) : Char :=
  if 65 ≤ c.toNat ∧ c.toNat ≤ 90 then Char.ofNat (c.toNat + 32) else c

/-- The method `String.prototype.toLowerCase`. -/
def toLowerCase (s : String) : String := ⟨s.data.map lowerChar⟩

/-- Whether `sub` occurs in `cs` as a contiguous block. -/
def includesChars (sub : List Char) : List Char → Bool
  | [] => sub.isEmpty
  | c :: cs => sub.isPrefixOf (c :: cs) || includesChars sub cs

/-- The method `String.prototype.includes`. -/
def includes (s sub : String) : Bool := includesChars sub.data s.data

/-! ## Numbers -/

/-- A JavaScript number, kept as the signed decimal `mantissa * 10 ^ exponent` it denotes. -/
inductive JsNumber
  | nan
  | infinity (negative : Bool)
  | decimal (negative : Bool) (mantissa : Nat) (exponent : Int)
  deriving DecidableEq, Repr

namespace JsNumber

/-- Whether `mantissa * 10 ^ exponent` rounds to zero as a double, that is, whether it is at
most `2 ^ (-1075)`, half of the smallest positive double. -/
def roundsToZero (mantissa : Nat) (exponent : Int) : Bool :=
  if mantissa = 0 then true
  else if 0 ≤ exponent then false
  else decide (mantissa * 2 ^ 1075 ≤ 10 ^ (-exponent).toNat)

/-- The number is `NaN`. -/
def isNaN : JsNumber → Bool
  | nan => true
  | _ => false

/-- The number is `+0` or `-0`. -/
def isZero : JsNumber → Bool
  | decimal _ m e => roundsToZero m e
  | _ => false

/-- JavaScript truthiness of a number: neither `NaN` nor zero. -/
def truthy (n : JsNumber) : Bool := !(n.isNaN || n.isZero)

/-- The comparison `n <= 0`; false for `NaN`. -/
def leZero : JsNumber → Bool
  | nan => false
  | infinity negative => negative
  | decimal negative m e => negative || roundsToZero m e

end JsNumber

/-- A decimal digit. -/
def isDecimalDigit (c : Char) : Bool := 48 ≤ c.toNat && c.toNat ≤ 57

/-- The value of a run of decimal digits. -/
def digitsValue (ds : List Char) : Nat :=
  ds.foldl (fun acc c => 10 * acc + (c.toNat - 48)) 0

/-- The run of digits of an exponent part, after its optional sign. -/
def exponentDigits (cs : List Char) : List Char := cs.takeWhile isDecimalDigit

/-- The value of the `ExponentPart` at the head of `cs`, or `0` when there is none. -/
def parseExponent : List Char → Int
  | [] => 0
  | c :: r =>
    if c = 'e' ∨ c = 'E' then
      match r with
      | [] => 0
      | d :: r2 =>
        if d = '+' then
          (if exponentDigits r2 = [] then 0 else (digitsValue (exponentDigits r2) : Int))
        else if d = '-' then
          (if exponentDigits r2 = [] then 0 else -(digitsValue (exponentDigits r2) : Int))
        else
          (if exponentDigits (d :: r2) = [] then 0 else (digitsValue (exponentDigits (d :: r2)) : Int))
    else 0

/-- The longest prefix of `cs` that is a `StrUnsignedDecimalLiteral`, as a number. -/
def parseUnsigned (negative : Bool) (cs : List Char) : JsNumber :=
  if "Infinity".data.isPrefixOf cs then JsNumber.infinity negative
  else
    let intDigits := cs.takeWhile isDecimalDigit
    let rest := cs.dropWhile isDecimalDigit
    match rest with
    | [] => if intDigits = [] then JsNumber.nan else JsNumber.decimal negative (digitsValue intDigits) 0
    | c :: r =>
      if c = '.' then
        let fracDigits := r.takeWhile isDecimalDigit
        if intDigits = [] ∧ fracDigits = [] then JsNumber.nan
        else JsNumber.decimal negative (digitsValue (intDigits ++ fracDigits))
          (parseExponent (r.dropWhile isDecimalDigit) - (fracDigits.length : Int))
      else if intDigits = [] then JsNumber.nan
      else JsNumber.decimal negative (digitsValue intDigits) (parseExponent (c :: r))

/-- The global function `parseFloat`: leading white space is skipped, then the longest
prefix that is a decimal literal is read; `NaN` when there is none. -/
def parseFloat (s : String) : JsNumber :=
  match s.data.dropWhile isStrWhiteSpaceChar with
  | [] => JsNumber.nan
  | c :: r =>
    if c = '+' then parseUnsigned false r
    else if c = '-' then parseUnsigned true r
    else parseUnsigned false (c :: r)

/-! ## Values -/

/-- A JavaScript value as it can come out of `response.json()`, plus `undefined`. -/
inductive JsVal
  | undefined
  | null
  | bool (b : Bool)
  | num (n : JsNumber)
  | str (s : String)
  | arr (elements : List JsVal)
  | obj (fields : List (String × JsVal))

namespace JsVal

/-- JavaScript truthiness, as tested by `if (response)`. -/
def truthy : JsVal → Bool
  | undefined => false
  | null => false
  | bool b => b
  | num n => n.truthy
  | str s => !s.data.isEmpty
  | arr _ => true
  | obj _ => true

/-- The call `Array.isArray(v)`. -/
def isArray : JsVal → Bool
  | arr _ => true
  | _ => false

/-- The elements of an array; no elements for any other value. -/
def items : JsVal → List JsVal
  | arr xs => xs
  | _ => []

end JsVal

/-- The own property `key` of an object read from JSON, `undefined` when absent. -/
def lookupField (key : String) : List (String × JsVal) → JsVal
  | [] => JsVal.undefined
  | (k, v) :: rest => if k = key then v else lookupField key rest

/-- Engine-defined behaviour the client relies on. -/
structure Builtins where
  /-- The method `Number.prototype.toFixed`. -/
  toFixed : JsNumber → Nat → String
  /-- The conversion of a number to a string. -/
  numberToString : JsNumber → String
  /-- The conversion of an array or object to a string, which may throw. -/
  objectToString : JsVal → Except String String
  /-- The message of the `TypeError` raised when property `key` of a value cannot be used. -/
  typeErrorMessage : JsVal → String → String
  /-- The time value `new Date(s)` holds for a string, `none` for an invalid date. -/
  dateParse : String → Option Int
  /-- The time value `new Date(v)` holds for a value that is not a string, which may throw. -/
  dateOfValue : JsVal → Except String (Option Int)
  /-- The method `Date.prototype.toLocaleString` on a valid date. -/
  toLocaleString : Int → String

/-- Property access `v.key` for the keys the client reads (`username`, `balance`,
`newBalance`, `type`, `amount`, `timestamp`): a `TypeError` on `null` and `undefined`,
the own property on an object, `undefined` on any other value. -/
def getProp (env : Builtins) (v : JsVal) (key : String) : Except String JsVal :=
  match v with
  | JsVal.undefined => Except.error (env.typeErrorMessage v key)
  | JsVal.null => Except.error (env.typeErrorMessage v key)
  | JsVal.obj fields => Except.ok (lookupField key fields)
  | _ => Except.ok JsVal.undefined

/-- The call `v.toFixed(2)`: defined on numbers only. -/
def callToFixed (env : Builtins) (v : JsVal) : Except String String :=
  match v with
  | JsVal.num n => Except.ok (env.toFixed n 2)
  | _ => Except.error (env.typeErrorMessage v "toFixed")

/-- The call `v.toLowerCase()`: defined on strings only. -/
def callToLowerCase (env : Builtins) (v : JsVal) : Except String String :=
  match v with
  | JsVal.str s => Except.ok (toLowerCase s)
  | _ => Except.error (env.typeErrorMessage v "toLowerCase")

/-- The conversion of a value to a string, as in a template literal. -/
def toStr (env : Builtins) (v : JsVal) : Except String String :=
  match v with
  | JsVal.undefined => Except.ok "undefined"
  | JsVal.null => Except.ok "null"
  | JsVal.bool true => Except.ok "true"
  | JsVal.bool false => Except.ok "false"
  | JsVal.num n => Except.ok (env.numberToString n)
  | JsVal.str s => Except.ok s
  | _ => env.objectToString v

/-- The string stored by `element.textContent = v`: empty for `null` and `undefined`. -/
def textContentOf (env : Builtins) (v : JsVal) : Except String String :=
  match v with
  | JsVal.undefined => Except.ok ""
  | JsVal.null => Except.ok ""
  | _ => toStr env v

/-! ## Page state -/

/-- The stored credentials `{ username, password }`. -/
structure Credentials where
  username : String
  password : String
  deriving DecidableEq, Repr

/-- A notification appended to the `messages` container: its text and its type, the second
word of its class name (`info`, `success` or `error`). -/
structure Message where
  text : String
  type : String
  deriving DecidableEq, Repr

/-- A request handed to `fetch` by `makeApiCall`. -/
structure ApiRequest where
  endpoint : String
  method : String
  data : JsVal

/-- The globals of the script and the parts of the page it reads and writes. -/
structure State where
  /-- Global `currentUser`. -/
  currentUser : JsVal
  /-- Global `currentCredentials`, `none` for `null`. -/
  currentCredentials : Option Credentials
  /-- Whether `loginSection` carries the class `hidden`. -/
  loginHidden : Bool
  /-- Whether `bankingSection` carries the class `hidden`. -/
  bankingHidden : Bool
  /-- Whether `transactionsSection` carries the class `hidden`. -/
  transactionsHidden : Bool
  /-- Children of the `messages` container, oldest first. -/
  messages : List Message
  /-- Value of the `username` input. -/
  usernameValue : String
  /-- Value of the `password` input. -/
  passwordValue : String
  /-- Value of the `depositAmount` input. -/
  depositAmountValue : String
  /-- Value of the `withdrawAmount` input. -/
  withdrawAmountValue : String
  /-- Text of the `currentUser` element. -/
  currentUserText : String
  /-- Text of the `currentBalance` element, the displayed balance. -/
  currentBalanceText : String
  /-- Markup of the `transactionsList` element. -/
  transactionsListHtml : String
  /-- Requests issued through `makeApiCall` so far, oldest first. -/
  apiCalls : List ApiRequest

/-- What `fetch` and the reading of the response body produce for one request. -/
inductive FetchOutcome
  /-- The promise of `fetch` rejects: transport failure. -/
  | rejected (message : String)
  /-- A response arrives; `json` is what `response.json()` yields, a value or a thrown error. -/
  | response (ok : Bool) (status : Nat) (statusText : String) (contentType : Option String)
      (json : Except String JsVal)

/-- The three view states of the page. -/
inductive ViewState
  | LoggedOut
  | Banking
  | BankingWithTransactions
  deriving DecidableEq, Repr

/-- The view state shown by the three sections, when they show one. -/
def viewState (s : State) : Option ViewState :=
  match s.loginHidden, s.bankingHidden, s.transactionsHidden with
  | false, true, true => some ViewState.LoggedOut
  | true, false, true => some ViewState.Banking
  | true, false, false => some ViewState.BankingWithTransactions
  | _, _, _ => none

/-! ## UI management -/

/-- Function `showLoginSection`. -/
def showLoginSection (s : State) : State :=
  { s with loginHidden := false, bankingHidden := true, transactionsHidden := true }

/-- Function `showBankingSection`. -/
def showBankingSection (s : State) : State :=
  { s with loginHidden := true, bankingHidden := false, transactionsHidden := true }

/-- Function `showTransactionsSection`. -/
def showTransactionsSection (s : State) : State :=
  { s with transactionsHidden := false }

/-- Function `hideTransactions`. -/
def hideTransactions (s : State) : State :=
  { s with transactionsHidden := true }

/-- Function `showMessage`: one notification is appended to the container. -/
def showMessage (message : String) (type : String) (s : State) : State :=
  { s with messages := s.messages ++ [{ text := message, type := type }] }

/-- Function `clearLoginForm`. -/
def clearLoginForm (s : State) : State :=
  { s with usernameValue := "", passwordValue := "" }

/-- The page once `DOMContentLoaded` has run: no session, login section shown. -/
def initialState : State :=
  showLoginSection
    { currentUser := JsVal.null, currentCredentials := none,
      loginHidden := false, bankingHidden := false, transactionsHidden := false,
      messages := [], usernameValue := "", passwordValue := "",
      depositAmountValue := "", withdrawAmountValue := "",
      currentUserText := "", currentBalanceText := "", transactionsListHtml := "",
      apiCalls := [] }

/-! ## API helper -/

/-- What `makeApiCall` returns or throws, given what the network produced. -/
def apiResult (net : FetchOutcome) : Except String JsVal :=
  match net with
  | FetchOutcome.rejected message => Except.error message
  | FetchOutcome.response ok status statusText contentType json =>
    if !ok then Except.error ("HTTP " ++ toString status ++ ": " ++ statusText)
    else
      match contentType with
      | some ct =>
        if !ct.data.isEmpty && includes ct "application/json" then json
        else Except.ok JsVal.null
      | none => Except.ok JsVal.null

/-- Function `makeApiCall`: the request is issued, then its result is returned or thrown. -/
def makeApiCall (endpoint : String) (method : String) (data : JsVal) (net : FetchOutcome)
    (s : State) : State × Except String JsVal :=
  ({ s with apiCalls := s.apiCalls ++ [{ endpoint := endpoint, method := method, data := data }] },
    apiResult net)

/-- The request body `{ username, password }`. -/
def credentialsBody (username password : String) : JsVal :=
  JsVal.obj [("username", JsVal.str username), ("password", JsVal.str password)]

/-- The request body `{ username, password, amount }`. -/
def amountBody (username password : String) (amount : JsNumber) : JsVal :=
  JsVal.obj [("username", JsVal.str username), ("password", JsVal.str password),
    ("amount", JsVal.num amount)]

/-! ## Authentication -/

/-- Function `register`. -/
def register (net : FetchOutcome) (s : State) : State :=
  let username := jsTrim s.usernameValue
  let password := s.passwordValue
  if username.data.isEmpty || password.data.isEmpty then
    showMessage "Please enter both username and password" "error" s
  else
    let call := makeApiCall "/register" "POST" (credentialsBody username password) net s
    match call.2 with
    | Except.error message => showMessage ("Registration failed: " ++ message) "error" call.1
    | Except.ok _ =>
      clearLoginForm (showMessage "Registration successful! You can now login." "success" call.1)

/-- The statements of `login` that follow `if (response)` inside the `try` block; an error
is returned with the state reached when it was thrown. -/
def loginSuccess (env : Builtins) (username password : String) (response : JsVal)
    (s : State) : State × Except String Unit :=
  match getProp env response "username" with
  | Except.error message => (s, Except.error message)
  | Except.ok user =>
    let s1 := { s with currentUser := user,
                       currentCredentials := some { username := username, password := password } }
    match textContentOf env user with
    | Except.error message => (s1, Except.error message)
    | Except.ok userText =>
      let s2 := { s1 with currentUserText := userText }
      match getProp env response "balance" with
      | Except.error message => (s2, Except.error message)
      | Except.ok balance =>
        match callToFixed env balance with
        | Except.error message => (s2, Except.error message)
        | Except.ok balanceText =>
          let s3 := showBankingSection { s2 with currentBalanceText := balanceText }
          match toStr env user with
          | Except.error message => (s3, Except.error message)
          | Except.ok name =>
            (clearLoginForm (showMessage ("Welcome back, " ++ name ++ "!") "success" s3),
              Except.ok ())

/-- Function `login`. -/
def login (env : Builtins) (net : FetchOutcome) (s : State) : State :=
  let username := jsTrim s.usernameValue
  let password := s.passwordValue
  if username.data.isEmpty || password.data.isEmpty then
    showMessage "Please enter both username and password" "error" s
  else
    let call := makeApiCall "/login" "POST" (credentialsBody username password) net s
    match call.2 with
    | Except.error message => showMessage ("Login failed: " ++ message) "error" call.1
    | Except.ok response =>
      if response.truthy then
        let body := loginSuccess env username password response call.1
        match body.2 with
        | Except.error message => showMessage ("Login failed: " ++ message) "error" body.1
        | Except.ok _ => body.1
      else call.1

/-- Function `logout`. -/
def logout (s : State) : State :=
  showMessage "Logged out successfully" "info"
    (showLoginSection { s with currentUser := JsVal.null, currentCredentials := none })

/-! ## Banking operations -/

/-- The test `!amount || amount <= 0` of `deposit` and `withdraw`. -/
def amountRejected (amount : JsNumber) : Bool := !amount.truthy || amount.leZero

/-- Function `deposit`. -/
def deposit (env : Builtins) (net : FetchOutcome) (s : State) : State :=
  let amount := parseFloat s.depositAmountValue
  if amountRejected amount then showMessage "Please enter a valid amount" "error" s
  else
    match s.currentCredentials with
    | none => showMessage "Please login first" "error" s
    | some credentials =>
      let call := makeApiCall "/deposit" "POST"
        (amountBody credentials.username credentials.password amount) net s
      match call.2 with
      | Except.error message => showMessage ("Deposit failed: " ++ message) "error" call.1
      | Except.ok response =>
        if response.truthy then
          match getProp env response "newBalance" with
          | Except.error message => showMessage ("Deposit failed: " ++ message) "error" call.1
          | Except.ok newBalance =>
            match callToFixed env newBalance with
            | Except.error message => showMessage ("Deposit failed: " ++ message) "error" call.1
            | Except.ok balanceText =>
              { showMessage ("Successfully deposited $" ++ env.toFixed amount 2) "success"
                  { call.1 with currentBalanceText := balanceText } with depositAmountValue := "" }
        else call.1

/-- Function `withdraw`. -/
def withdraw (env : Builtins) (net : FetchOutcome) (s : State) : State :=
  let amount := parseFloat s.withdrawAmountValue
  if amountRejected amount then showMessage "Please enter a valid amount" "error" s
  else
    match s.currentCredentials with
    | none => showMessage "Please login first" "error" s
    | some credentials =>
      let call := makeApiCall "/withdraw" "POST"
        (amountBody credentials.username credentials.password amount) net s
      match call.2 with
      | Except.error message => showMessage ("Withdrawal failed: " ++ message) "error" call.1
      | Except.ok response =>
        if response.truthy then
          match getProp env response "newBalance" with
          | Except.error message => showMessage ("Withdrawal failed: " ++ message) "error" call.1
          | Except.ok newBalance =>
            match callToFixed env newBalance with
            | Except.error message => showMessage ("Withdrawal failed: " ++ message) "error" call.1
            | Except.ok balanceText =>
              { showMessage ("Successfully withdrew $" ++ env.toFixed amount 2) "success"
                  { call.1 with currentBalanceText := balanceText } with withdrawAmountValue := "" }
        else call.1

/-- Function `getBalance`. -/
def getBalance (env : Builtins) (net : FetchOutcome) (s : State) : State :=
  match s.currentCredentials with
  | none => showMessage "Please login first" "error" s
  | some credentials =>
    let call := makeApiCall "/balance" "POST"
      (credentialsBody credentials.username credentials.password) net s
    match call.2 with
    | Except.error message => showMessage ("Failed to get balance: " ++ message) "error" call.1
    | Except.ok response =>
      if response.truthy then
        match getProp env response "balance" with
        | Except.error message => showMessage ("Failed to get balance: " ++ message) "error" call.1
        | Except.ok balance =>
          match callToFixed env balance with
          | Except.error message => showMessage ("Failed to get balance: " ++ message) "error" call.1
          | Except.ok balanceText =>
            showMessage "Balance updated" "info" { call.1 with currentBalanceText := balanceText }
      else call.1

/-! ## Transaction list -/

/-- The expression `new Date(v)`: its time value, `none` when the date is invalid.  A string
is parsed and never throws. -/
def newDate (env : Builtins) (v : JsVal) : Except String (Option Int) :=
  match v with
  | JsVal.str s => Except.ok (env.dateParse s)
  | _ => env.dateOfValue v

/-- The method `toLocaleString` of a date; an invalid date yields `Invalid Date`. -/
def dateToLocaleString (env : Builtins) (time : Option Int) : String :=
  match time with
  | some t => env.toLocaleString t
  | none => "Invalid Date"

/-- Function `formatDate`: the `catch` branch returns its argument. -/
def formatDate (env : Builtins) (dateString : JsVal) : JsVal :=
  match newDate env dateString with
  | Except.ok time => JsVal.str (dateToLocaleString env time)
  | Except.error _ => dateString

/-- The three locals `transactionClass`, `amountClass` and `amountPrefix` of one row. -/
structure RowStyle where
  transactionClass : String
  amountClass : String
  amountPrefix : String
  deriving DecidableEq, Repr

/-- The locals computed from `isDeposit` in the callback of `displayTransactions`. -/
def rowStyle (isDeposit : Bool) : RowStyle :=
  { transactionClass := if isDeposit then "deposit" else "withdrawal",
    amountClass := if isDeposit then "positive" else "negative",
    amountPrefix := if isDeposit then "+" else "-" }

/-- The template literal returned by the callback of `displayTransactions`. -/
def rowHtml (style : RowStyle) (typeText dateText amountText : String) : String :=
  "\n            <div class=\"transaction-item " ++ style.transactionClass ++ "\">"
    ++ "\n                <div class=\"transaction-details\">"
    ++ "\n                    <div class=\"transaction-type\">" ++ typeText ++ "</div>"
    ++ "\n                    <div class=\"transaction-date\">" ++ dateText ++ "</div>"
    ++ "\n                </div>"
    ++ "\n                <div class=\"transaction-amount " ++ style.amountClass ++ "\">"
    ++ "\n                    " ++ style.amountPrefix ++ "$" ++ amountText
    ++ "\n                </div>"
    ++ "\n            </div>"
    ++ "\n        "

/-- The local `isDeposit` of the callback: `transaction.type.toLowerCase().includes('deposit')`. -/
def isDepositOf (env : Builtins) (transaction : JsVal) : Except String Bool :=
  match getProp env transaction "type" with
  | Except.error message => Except.error message
  | Except.ok type =>
    match callToLowerCase env type with
    | Except.error message => Except.error message
    | Except.ok lowered => Except.ok (includes lowered "deposit")

/-- The callback passed to `transactions.map` in `displayTransactions`. -/
def renderTransaction (env : Builtins) (transaction : JsVal) : Except String String :=
  match isDepositOf env transaction with
  | Except.error message => Except.error message
  | Except.ok isDeposit =>
    match getProp env transaction "type" with
    | Except.error message => Except.error message
    | Except.ok type =>
      match toStr env type with
      | Except.error message => Except.error message
      | Except.ok typeText =>
        match getProp env transaction "timestamp" with
        | Except.error message => Except.error message
        | Except.ok timestamp =>
          match toStr env (formatDate env timestamp) with
          | Except.error message => Except.error message
          | Except.ok dateText =>
            match getProp env transaction "amount" with
            | Except.error message => Except.error message
            | Except.ok amount =>
              match callToFixed env amount with
              | Except.error message => Except.error message
              | Except.ok amountText =>
                Except.ok (rowHtml (rowStyle isDeposit) typeText dateText amountText)

/-- The call `transactions.map(callback)`: rows in order, stopping at the first throw. -/
def renderAll (env : Builtins) : List JsVal → Except String (List String)
  | [] => Except.ok []
  | transaction :: rest =>
    match renderTransaction env transaction with
    | Except.error message => Except.error message
    | Except.ok row =>
      match renderAll env rest with
      | Except.error message => Except.error message
      | Except.ok rows => Except.ok (row :: rows)

/-- Function `displayTransactions`: the markup is replaced unless a row throws. -/
def displayTransactions (env : Builtins) (transactions : List JsVal) (s : State) :
    Except String State :=
  if transactions.length = 0 then
    Except.ok { s with transactionsListHtml := "<p>No transactions found.</p>" }
  else
    match renderAll env transactions with
    | Except.error message => Except.error message
    | Except.ok rows => Except.ok { s with transactionsListHtml := String.join rows }

/-- Function `getTransactions`. -/
def getTransactions (env : Builtins) (net : FetchOutcome) (s : State) : State :=
  match s.currentCredentials with
  | none => showMessage "Please login first" "error" s
  | some credentials =>
    let call := makeApiCall "/transactions" "POST"
      (credentialsBody credentials.username credentials.password) net s
    match call.2 with
    | Except.error message =>
      showMessage ("Failed to get transactions: " ++ message) "error" call.1
    | Except.ok response =>
      if response.truthy && response.isArray then
        match displayTransactions env response.items call.1 with
        | Except.error message =>
          showMessage ("Failed to get transactions: " ++ message) "error" call.1
        | Except.ok s2 => showTransactionsSection s2
      else showMessage "No transactions found" "info" call.1

/-! ## Sequences of operations -/

/-- The four inputs of the page. -/
inductive InputField
  | username
  | password
  | depositAmount
  | withdrawAmount
  deriving DecidableEq, Repr

/-- The user types `value` into an input. -/
def setInput (field : InputField) (value : String) (s : State) : State :=
  match field with
  | InputField.username => { s with usernameValue := value }
  | InputField.password => { s with passwordValue := value }
  | InputField.depositAmount => { s with depositAmountValue := value }
  | InputField.withdrawAmount => { s with withdrawAmountValue := value }

/-- One completed user action; an operation that may call the API carries the outcome of
that call. -/
inductive Action
  | setInput (field : InputField) (value : String)
  | register (net : FetchOutcome)
  | login (net : FetchOutcome)
  | logout
  | deposit (net : FetchOutcome)
  | withdraw (net : FetchOutcome)
  | getBalance (net : FetchOutcome)
  | getTransactions (net : FetchOutcome)
  | hideTransactions

/-- The state after one action. -/
def step (env : Builtins) (a : Action) (s : State) : State :=
  match a with
  | Action.setInput field value => setInput field value s
  | Action.register net => register net s
  | Action.login net => login env net s
  | Action.logout => logout s
  | Action.deposit net => deposit env net s
  | Action.withdraw net => withdraw env net s
  | Action.getBalance net => getBalance env net s
  | Action.getTransactions net => getTransactions env net s
  | Action.hideTransactions => hideTransactions s

/-- The state after a sequence of actions, run one after the other. -/
def run (env : Builtins) : List Action → State → State
  | [], s => s
  | a :: rest, s => run env rest (step env a s)

/-! ## Vocabulary of the properties -/

/-- The inputs pass the validation of `login`: user name (trimmed) and password are not empty. -/
def loginAccepted (s : State) : Prop :=
  (jsTrim s.usernameValue).data.isEmpty = false ∧ s.passwordValue.data.isEmpty = false

/-- The API call succeeds with the JSON payload `payload`: the status is a success, the
content type is `application/json` and the body parses to `payload`. -/
def succeedsWithJson (net : FetchOutcome) (payload : JsVal) : Prop :=
  ∃ status statusText contentType,
    net = FetchOutcome.response true status statusText (some contentType) (Except.ok payload)
      ∧ includes contentType "application/json" = true

/-- The API call fails: transport failure or non-success HTTP status. -/
def FetchOutcome.fails : FetchOutcome → Bool
  | FetchOutcome.rejected _ => true
  | FetchOutcome.response ok _ _ _ _ => !ok

/-- A fixed choice of the engine-defined behaviour, to run the operations on examples. -/
def exampleBuiltins : Builtins :=
  { toFixed := fun _ _ => "0.00",
    numberToString := fun _ => "0",
    objectToString := fun _ => Except.ok "[object Object]",
    typeErrorMessage := fun _ key => "Cannot read properties (reading " ++ key ++ ")",
    dateParse := fun _ => none,
    dateOfValue := fun _ => Except.ok none,
    toLocaleString := fun _ => "1/1/1970, 12:00:00 AM" }

/-- A successful JSON response carrying `payload`. -/
def jsonResponse (payload : JsVal) : FetchOutcome :=
  FetchOutcome.response true 200 "OK" (some "application/json") (Except.ok payload)

/-- The initial page with `alice` and `pw` typed into the login form. -/
def aliceForm : State :=
  setInput InputField.password "pw" (setInput InputField.username " alice " initialState)

/-- A page in view `Banking` with the session of `alice`. -/
def aliceBanking : State :=
  login exampleBuiltins
    (jsonResponse (JsVal.obj [("username", JsVal.str "alice"),
      ("balance", JsVal.num (JsNumber.decimal false 100 0))])) aliceForm

/-- The four endpoints that require the stored credentials. -/
def authenticatedEndpoint (endpoint : String) : Bool :=
  endpoint = "/deposit" || endpoint = "/withdraw" || endpoint = "/balance"
    || endpoint = "/transactions"

/-- The body of request `r` is an object whose `username` and `password` are the given
strings. -/
def RequestCarries (username password : String) (r : ApiRequest) : Prop :=
  ∃ fields, r.data = JsVal.obj fields
    ∧ lookupField "username" fields = JsVal.str username
    ∧ lookupField "password" fields = JsVal.str password

/-- Whether action `a`, run in state `s`, is a `logout` or a successful `login`: one whose
inputs pass validation and whose API call returns a truthy value, so that it stores a
session. -/
def replacesSession (a : Action) (s : State) : Bool :=
  match a with
  | Action.logout => true
  | Action.login net =>
    match apiResult net with
    | Except.ok response =>
      response.truthy && !(jsTrim s.usernameValue).data.isEmpty && !s.passwordValue.data.isEmpty
    | Except.error _ => false
  | _ => false

/-- No action of the sequence, run from `s`, is a `logout` or a successful `login`. -/
def SessionKept (env : Builtins) : List Action → State → Prop
  | [], _ => True
  | a :: rest, s => replacesSession a s = false ∧ SessionKept env rest (step env a s)

/-- The requests issued between state `s` and the later state `s2`. -/
def requestsSince (s s2 : State) : List ApiRequest := s2.apiCalls.drop s.apiCalls.length

/-- What `register`, `deposit`, `withdraw`, `getBalance` and `getTransactions` leave alone:
the session and the visibility of the login and banking sections. -/
def Frame (s s2 : State) : Prop :=
  s2.currentUser = s.currentUser ∧ s2.currentCredentials = s.currentCredentials
  ∧ s2.loginHidden = s.loginHidden ∧ s2.bankingHidden = s.bankingHidden

/-- The requests added between `s` and `s2`: any of them sent to an authenticated endpoint
carries the credentials stored in `s`. -/
def SendsStored (s s2 : State) : Prop :=
  ∃ extra, s2.apiCalls = s.apiCalls ++ extra
    ∧ ∀ r ∈ extra, authenticatedEndpoint r.endpoint = true →
        ∃ c, s.currentCredentials = some c ∧ RequestCarries c.username c.password r

/-- A session is stored exactly when the view is not `LoggedOut`, and the view is one of
the three view states. -/
def Consistent (s : State) : Prop :=
  (s.currentCredentials = none ∧ viewState s = some ViewState.LoggedOut)
  ∨ (s.currentCredentials ≠ none
      ∧ (viewState s = some ViewState.Banking
        ∨ viewState s = some ViewState.BankingWithTransactions))

/-- When the action is a `login` whose call returns a truthy value, that value has a
`username` that can be written to the page and a numeric `balance`; no condition on any
other action. -/
def LoginDisplayable (env : Builtins) (a : Action) : Prop :=
  match a with
  | Action.login net =>
    ∀ response, apiResult net = Except.ok response → response.truthy = true →
      ∃ user userText balance balanceText,
        getProp env response "username" = Except.ok user
        ∧ textContentOf env user = Except.ok userText
        ∧ getProp env response "balance" = Except.ok balance
        ∧ callToFixed env balance = Except.ok balanceText
  | _ => True

/-- A transaction as the API documents it: `{ type, amount, timestamp }`. -/
structure Transaction where
  type : String
  amount : JsNumber
  timestamp : String

/-- The JSON object of a transaction. -/
def Transaction.toJsVal (t : Transaction) : JsVal :=
  JsVal.obj [("type", JsVal.str t.type), ("amount", JsVal.num t.amount),
    ("timestamp", JsVal.str t.timestamp)]

/-- The markup of a row rendered as a deposit: class `deposit` on the item, class `positive`
on the amount and the amount prefixed with `+`. -/
def depositRow (typeText dateText amountText : String) : String :=
  "\n            <div class=\"transaction-item deposit\">"
    ++ "\n                <div class=\"transaction-details\">"
    ++ "\n                    <div class=\"transaction-type\">" ++ typeText ++ "</div>"
    ++ "\n                    <div class=\"transaction-date\">" ++ dateText ++ "</div>"
    ++ "\n                </div>"
    ++ "\n                <div class=\"transaction-amount positive\">"
    ++ "\n                    +$" ++ amountText
    ++ "\n                </div>"
    ++ "\n            </div>"
    ++ "\n        "

/-- The markup of a row rendered as a withdrawal: class `withdrawal` on the item, class
`negative` on the amount and the amount prefixed with `-`. -/
def withdrawalRow (typeText dateText amountText : String) : String :=
  "\n            <div class=\"transaction-item withdrawal\">"
    ++ "\n                <div class=\"transaction-details\">"
    ++ "\n                    <div class=\"transaction-type\">" ++ typeText ++ "</div>"
    ++ "\n                    <div class=\"transaction-date\">" ++ dateText ++ "</div>"
    ++ "\n                </div>"
    ++ "\n                <div class=\"transaction-amount negative\">"
    ++ "\n                    -$" ++ amountText
    ++ "\n                </div>"
    ++ "\n            </div>"
    ++ "\n        "

/-- The row the classification rule prescribes for a transaction: rendered as a deposit
exactly when the lower-cased type contains `deposit`, as a withdrawal otherwise. -/
def expectedRow (env : Builtins) (t : Transaction) : String :=
  if "deposit".data <:+: (toLowerCase t.type).data then
    depositRow t.type (dateToLocaleString env (env.dateParse t.timestamp))
      (env.toFixed t.amount 2)
  else
    withdrawalRow t.type (dateToLocaleString env (env.dateParse t.timestamp))
      (env.toFixed t.amount 2)

/-- Whether the run of characters is empty or an exponent part in full: `e` or `E`, an
optional sign and at least one digit, with nothing after. -/
def isExponentText (cs : List Char) : Bool :=
  match cs with
  | [] => true
  | c :: r =>
    if c = 'e' ∨ c = 'E' then
      match r with
      | [] => false
      | d :: r2 =>
        if d = '+' ∨ d = '-' then !r2.isEmpty && r2.all isDecimalDigit
        else (d :: r2).all isDecimalDigit
    else false

/-- Whether the characters are an unsigned decimal number in full: digits with an optional
fraction point, at least one digit, and an optional exponent. -/
def isUnsignedNumericText (cs : List Char) : Bool :=
  match cs.dropWhile isDecimalDigit with
  | [] => !cs.isEmpty
  | c :: r =>
    if c = '.' then
      !((cs.takeWhile isDecimalDigit).isEmpty && (r.takeWhile isDecimalDigit).isEmpty)
        && isExponentText (r.dropWhile isDecimalDigit)
    else !(cs.takeWhile isDecimalDigit).isEmpty && isExponentText (c :: r)

/-- Whether an amount input is numeric: with white space removed at both ends, the whole
text is a decimal number with an optional sign. -/
def isNumericText (s : String) : Bool :=
  match (jsTrim s).data with
  | [] => false
  | c :: r => if c = '+' ∨ c = '-' then isUnsignedNumericText r else isUnsignedNumericText (c :: r)

/-- The sequence that logs `alice` in with a response that has no `balance`. -/
def loginWithoutBalance : List Action :=
  [Action.setInput InputField.username "alice", Action.setInput InputField.password "pw",
    Action.login (jsonResponse (JsVal.obj [("username", JsVal.str "alice")]))]

/-! # Lemmas -/

/-! ## Frame lemmas -/

theorem sendsStored_of_same {s s2 : State} (h : s2.apiCalls = s.apiCalls) : SendsStored s s2 :=
  ⟨[], by simp [h], by simp⟩

theorem deposit_frame (env : Builtins) (net : FetchOutcome) (s : State) :
    Frame s (deposit env net s) ∧ (deposit env net s).transactionsHidden = s.transactionsHidden
    ∧ ((deposit env net s).apiCalls = s.apiCalls
      ∨ ∃ c, s.currentCredentials = some c ∧ (deposit env net s).apiCalls = s.apiCalls ++
          [{ endpoint := "/deposit", method := "POST",
             data := amountBody c.username c.password (parseFloat s.depositAmountValue) }]) := by
  unfold deposit Frame
  simp only [makeApiCall]
  repeat' split
  all_goals simp_all [showMessage]

theorem withdraw_frame (env : Builtins) (net : FetchOutcome) (s : State) :
    Frame s (withdraw env net s) ∧ (withdraw env net s).transactionsHidden = s.transactionsHidden
    ∧ ((withdraw env net s).apiCalls = s.apiCalls
      ∨ ∃ c, s.currentCredentials = some c ∧ (withdraw env net s).apiCalls = s.apiCalls ++
          [{ endpoint := "/withdraw", method := "POST",
             data := amountBody c.username c.password (parseFloat s.withdrawAmountValue) }]) := by
  unfold withdraw Frame
  simp only [makeApiCall]
  repeat' split
  all_goals simp_all [showMessage]

theorem getBalance_frame (env : Builtins) (net : FetchOutcome) (s : State) :
    Frame s (getBalance env net s)
    ∧ (getBalance env net s).transactionsHidden = s.transactionsHidden
    ∧ ((getBalance env net s).apiCalls = s.apiCalls
      ∨ ∃ c, s.currentCredentials = some c ∧ (getBalance env net s).apiCalls = s.apiCalls ++
          [{ endpoint := "/balance", method := "POST",
             data := credentialsBody c.username c.password }]) := by
  unfold getBalance Frame
  simp only [makeApiCall]
  repeat' split
  all_goals simp_all [showMessage]

theorem displayTransactions_frame (env : Builtins) (ts : List JsVal) (s s2 : State)
    (h : displayTransactions env ts s = Except.ok s2) :
    ∃ html, s2 = { s with transactionsListHtml := html } := by
  unfold displayTransactions at h
  split at h
  · exact ⟨_, (Except.ok.inj h).symm⟩
  · split at h
    · cases h
    · exact ⟨_, (Except.ok.inj h).symm⟩

theorem getTransactions_frame (env : Builtins) (net : FetchOutcome) (s : State) :
    Frame s (getTransactions env net s)
    ∧ ((getTransactions env net s).transactionsHidden = s.transactionsHidden
      ∨ ((getTransactions env net s).transactionsHidden = false
          ∧ ∃ c, s.currentCredentials = some c))
    ∧ ((getTransactions env net s).apiCalls = s.apiCalls
      ∨ ∃ c, s.currentCredentials = some c ∧ (getTransactions env net s).apiCalls = s.apiCalls ++
          [{ endpoint := "/transactions", method := "POST",
             data := credentialsBody c.username c.password }]) := by
  unfold getTransactions Frame
  simp only [makeApiCall]
  split
  · simp_all [showMessage]
  · split
    · simp_all [showMessage]
    · split
      · split
        · simp_all [showMessage]
        · rename_i s2 hd
          obtain ⟨html, rfl⟩ := displayTransactions_frame env _ _ _ hd
          simp_all [showTransactionsSection]
      · simp_all [showMessage]

theorem register_frame (net : FetchOutcome) (s : State) :
    Frame s (register net s) ∧ (register net s).transactionsHidden = s.transactionsHidden
    ∧ ((register net s).apiCalls = s.apiCalls
      ∨ ∃ data, (register net s).apiCalls = s.apiCalls ++
          [{ endpoint := "/register", method := "POST", data := data }]) := by
  unfold register Frame
  simp only [makeApiCall]
  repeat' split
  all_goals simp_all [showMessage, clearLoginForm]

theorem getProp_of_truthy (env : Builtins) (r : JsVal) (key : String) (h : r.truthy = true) :
    ∃ v, getProp env r key = Except.ok v := by
  cases r <;> simp_all [getProp, JsVal.truthy]

theorem loginSuccess_stores (env : Builtins) (username password : String) (response : JsVal)
    (s : State) (h : response.truthy = true) :
    (loginSuccess env username password response s).1.currentCredentials
        = some { username := username, password := password }
    ∧ (loginSuccess env username password response s).1.apiCalls = s.apiCalls := by
  obtain ⟨user, hu⟩ := getProp_of_truthy env response "username" h
  unfold loginSuccess
  simp only [hu]
  repeat' split
  all_goals simp_all [showMessage, clearLoginForm, showBankingSection]

/-- The display part of a `login` runs through when the response carries a user name that
converts to a string and a numeric balance. -/
theorem loginSuccess_shows (env : Builtins) (username password : String) (response : JsVal)
    (s : State) (user balance : JsVal) (userText balanceText name : String)
    (hu : getProp env response "username" = Except.ok user)
    (ht : textContentOf env user = Except.ok userText)
    (hb : getProp env response "balance" = Except.ok balance)
    (hf : callToFixed env balance = Except.ok balanceText)
    (hn : toStr env user = Except.ok name) :
    (loginSuccess env username password response s).2 = Except.ok ()
    ∧ (loginSuccess env username password response s).1.loginHidden = true
    ∧ (loginSuccess env username password response s).1.bankingHidden = false
    ∧ (loginSuccess env username password response s).1.transactionsHidden = true := by
  simp [loginSuccess, hu, ht, hb, hf, hn, showMessage, clearLoginForm, showBankingSection]

theorem login_requests (env : Builtins) (net : FetchOutcome) (s : State) :
    (login env net s).apiCalls = s.apiCalls
      ∨ (login env net s).apiCalls = s.apiCalls ++
          [{ endpoint := "/login", method := "POST",
             data := credentialsBody (jsTrim s.usernameValue) s.passwordValue }] := by
  unfold login
  simp only [makeApiCall]
  split
  · simp [showMessage]
  · split
    · simp [showMessage]
    · split
      · rename_i response _ ht
        have h := (loginSuccess_stores env (jsTrim s.usernameValue) s.passwordValue response
          (makeApiCall "/login" "POST"
            (credentialsBody (jsTrim s.usernameValue) s.passwordValue) net s).1 ht).2
        simp only [makeApiCall] at h
        split <;> simp_all [showMessage]
      · simp

theorem login_keeps (env : Builtins) (net : FetchOutcome) (s : State)
    (h : replacesSession (Action.login net) s = false) :
    Frame s (login env net s) ∧ (login env net s).transactionsHidden = s.transactionsHidden := by
  unfold login Frame
  simp only [makeApiCall]
  unfold replacesSession at h
  split
  · simp [showMessage]
  · rename_i hv
    split
    · simp [showMessage]
    · rename_i response hres
      simp only [hres] at h
      have : response.truthy = false := by
        simp only [Bool.or_eq_true, not_or, Bool.not_eq_true] at hv
        simp_all
      simp [this]

theorem login_stores (env : Builtins) (net : FetchOutcome) (s : State) (response : JsVal)
    (hvalid : loginAccepted s) (hres : apiResult net = Except.ok response)
    (ht : response.truthy = true) :
    (login env net s).currentCredentials
      = some { username := jsTrim s.usernameValue, password := s.passwordValue } := by
  unfold loginAccepted at hvalid
  unfold login
  simp only [makeApiCall, hvalid.1, hvalid.2, hres, ht]
  have h := (loginSuccess_stores env (jsTrim s.usernameValue) s.passwordValue response
          (makeApiCall "/login" "POST"
            (credentialsBody (jsTrim s.usernameValue) s.passwordValue) net s).1 ht).1
  simp only [makeApiCall] at h
  simp only [Bool.or_self, Bool.false_eq_true, ↓reduceIte]
  split <;> simp_all [showMessage]

theorem apiResult_of_succeedsWithJson {net : FetchOutcome} {payload : JsVal}
    (h : succeedsWithJson net payload) : apiResult net = Except.ok payload := by
  obtain ⟨status, statusText, ct, rfl, hct⟩ := h
  have hne : ct.data.isEmpty = false := by
    cases hd : ct.data with
    | nil => simp [includes, includesChars, hd] at hct
    | cons c cs => rfl
  simp [apiResult, hct, hne]

theorem sendsStored_of_deposit (env : Builtins) (net : FetchOutcome) (s : State) :
    SendsStored s (deposit env net s) := by
  rcases (deposit_frame env net s).2.2 with h | ⟨c, hc, h⟩
  · exact sendsStored_of_same h
  · refine ⟨_, h, ?_⟩
    intro r hr _
    simp only [List.mem_singleton] at hr
    subst hr
    exact ⟨c, hc, _, rfl, rfl, rfl⟩

theorem sendsStored_of_withdraw (env : Builtins) (net : FetchOutcome) (s : State) :
    SendsStored s (withdraw env net s) := by
  rcases (withdraw_frame env net s).2.2 with h | ⟨c, hc, h⟩
  · exact sendsStored_of_same h
  · refine ⟨_, h, ?_⟩
    intro r hr _
    simp only [List.mem_singleton] at hr
    subst hr
    exact ⟨c, hc, _, rfl, rfl, rfl⟩

theorem sendsStored_of_getBalance (env : Builtins) (net : FetchOutcome) (s : State) :
    SendsStored s (getBalance env net s) := by
  rcases (getBalance_frame env net s).2.2 with h | ⟨c, hc, h⟩
  · exact sendsStored_of_same h
  · refine ⟨_, h, ?_⟩
    intro r hr _
    simp only [List.mem_singleton] at hr
    subst hr
    exact ⟨c, hc, _, rfl, rfl, rfl⟩

theorem sendsStored_of_getTransactions (env : Builtins) (net : FetchOutcome) (s : State) :
    SendsStored s (getTransactions env net s) := by
  rcases (getTransactions_frame env net s).2.2 with h | ⟨c, hc, h⟩
  · exact sendsStored_of_same h
  · refine ⟨_, h, ?_⟩
    intro r hr _
    simp only [List.mem_singleton] at hr
    subst hr
    exact ⟨c, hc, _, rfl, rfl, rfl⟩

theorem sendsStored_of_register (net : FetchOutcome) (s : State) :
    SendsStored s (register net s) := by
  rcases (register_frame net s).2.2 with h | ⟨data, h⟩
  · exact sendsStored_of_same h
  · refine ⟨_, h, ?_⟩
    intro r hr he
    simp only [List.mem_singleton] at hr
    subst hr
    have hno : ¬ authenticatedEndpoint "/register" = true := by decide
    exact absurd he hno

theorem sendsStored_of_login (env : Builtins) (net : FetchOutcome) (s : State) :
    SendsStored s (login env net s) := by
  rcases login_requests env net s with h | h
  · exact sendsStored_of_same h
  · refine ⟨_, h, ?_⟩
    intro r hr he
    simp only [List.mem_singleton] at hr
    subst hr
    have hno : ¬ authenticatedEndpoint "/login" = true := by decide
    exact absurd he hno

/-- Every action only adds requests, and those sent to an authenticated endpoint carry the
credentials stored when the action started. -/
theorem sendsStored_of_step (env : Builtins) (a : Action) (s : State) :
    SendsStored s (step env a s) := by
  cases a with
  | setInput field value => cases field <;> exact sendsStored_of_same rfl
  | register net => exact sendsStored_of_register net s
  | login net => exact sendsStored_of_login env net s
  | logout => exact sendsStored_of_same rfl
  | deposit net => exact sendsStored_of_deposit env net s
  | withdraw net => exact sendsStored_of_withdraw env net s
  | getBalance net => exact sendsStored_of_getBalance env net s
  | getTransactions net => exact sendsStored_of_getTransactions env net s
  | hideTransactions => exact sendsStored_of_same rfl

/-- An action that is neither a `logout` nor a successful `login` keeps the stored
credentials. -/
theorem credentials_of_step (env : Builtins) (a : Action) (s : State)
    (h : replacesSession a s = false) :
    (step env a s).currentCredentials = s.currentCredentials := by
  cases a with
  | setInput field value => cases field <;> rfl
  | register net => exact (register_frame net s).1.2.1
  | login net => exact (login_keeps env net s h).1.2.1
  | logout => simp [replacesSession] at h
  | deposit net => exact (deposit_frame env net s).1.2.1
  | withdraw net => exact (withdraw_frame env net s).1.2.1
  | getBalance net => exact (getBalance_frame env net s).1.2.1
  | getTransactions net => exact (getTransactions_frame env net s).1.2.1
  | hideTransactions => rfl

/-- While the session is kept, the credentials stay and every authenticated request issued
carries them. -/
theorem run_sends_stored (env : Builtins) (c : Credentials) :
    ∀ (acts : List Action) (s : State), s.currentCredentials = some c →
      SessionKept env acts s →
      (run env acts s).currentCredentials = some c
      ∧ ∃ extra, (run env acts s).apiCalls = s.apiCalls ++ extra
          ∧ ∀ r ∈ extra, authenticatedEndpoint r.endpoint = true →
              RequestCarries c.username c.password r := by
  intro acts
  induction acts with
  | nil => intro s hc _; exact ⟨hc, [], by simp [run], by simp⟩
  | cons a rest ih =>
    intro s hc hk
    obtain ⟨hkeep, hrest⟩ := hk
    have hc1 : (step env a s).currentCredentials = some c := by
      rw [credentials_of_step env a s hkeep, hc]
    obtain ⟨hfin, extra2, he2, hall2⟩ := ih (step env a s) hc1 hrest
    obtain ⟨extra1, he1, hall1⟩ := sendsStored_of_step env a s
    refine ⟨hfin, extra1 ++ extra2, ?_, ?_⟩
    · simp only [run]; rw [he2, he1, List.append_assoc]
    · intro r hr hauth
      rcases List.mem_append.mp hr with h1 | h2
      · obtain ⟨c2, hc2, hcar⟩ := hall1 r h1 hauth
        rw [hc] at hc2
        cases hc2
        exact hcar
      · exact hall2 r h2 hauth

/-! ## The session and the view -/

theorem viewState_of_frame {s s2 : State} (h : Frame s s2)
    (ht : s2.transactionsHidden = s.transactionsHidden) : viewState s2 = viewState s := by
  obtain ⟨_, _, hl, hb⟩ := h
  simp [viewState, hl, hb, ht]

theorem consistent_of_frame {s s2 : State} (h : Frame s s2)
    (ht : s2.transactionsHidden = s.transactionsHidden) (hs : Consistent s) :
    Consistent s2 := by
  unfold Consistent at *
  rw [viewState_of_frame h ht, h.2.1]
  exact hs

theorem consistent_of_setInput (field : InputField) (value : String) (s : State)
    (hs : Consistent s) : Consistent (setInput field value s) := by
  cases field <;> exact consistent_of_frame ⟨rfl, rfl, rfl, rfl⟩ rfl hs

theorem consistent_of_logout (s : State) : Consistent (logout s) :=
  Or.inl ⟨rfl, rfl⟩

theorem consistent_of_hideTransactions (s : State) (hs : Consistent s) :
    Consistent (hideTransactions s) := by
  unfold Consistent viewState hideTransactions at *
  cases hl : s.loginHidden <;> cases hb : s.bankingHidden <;> cases ht : s.transactionsHidden
    <;> simp_all

theorem consistent_of_getTransactions (env : Builtins) (net : FetchOutcome) (s : State)
    (hs : Consistent s) : Consistent (getTransactions env net s) := by
  obtain ⟨hf, ht, _⟩ := getTransactions_frame env net s
  rcases ht with ht | ⟨ht, c, hc⟩
  · exact consistent_of_frame hf ht hs
  · obtain ⟨_, hcr, hl, hb⟩ := hf
    unfold Consistent viewState at *
    rw [hcr, hl, hb, ht]
    cases hl2 : s.loginHidden <;> cases hb2 : s.bankingHidden
      <;> cases ht2 : s.transactionsHidden <;> simp_all

theorem loginSuccess_view (env : Builtins) (username password : String) (response : JsVal)
    (s : State) (user balance : JsVal) (userText balanceText : String)
    (hu : getProp env response "username" = Except.ok user)
    (ht : textContentOf env user = Except.ok userText)
    (hb : getProp env response "balance" = Except.ok balance)
    (hf : callToFixed env balance = Except.ok balanceText) :
    (loginSuccess env username password response s).1.loginHidden = true
    ∧ (loginSuccess env username password response s).1.bankingHidden = false
    ∧ (loginSuccess env username password response s).1.transactionsHidden = true := by
  unfold loginSuccess
  simp only [hu, ht, hb, hf]
  split <;> simp [showMessage, clearLoginForm, showBankingSection]

theorem consistent_of_login (env : Builtins) (net : FetchOutcome) (s : State)
    (hd : LoginDisplayable env (Action.login net)) (hs : Consistent s) :
    Consistent (login env net s) := by
  cases hr : replacesSession (Action.login net) s with
  | false =>
    obtain ⟨hf, ht⟩ := login_keeps env net s hr
    exact consistent_of_frame hf ht hs
  | true =>
    unfold replacesSession at hr
    cases hres : apiResult net with
    | error message => simp [hres] at hr
    | ok response =>
      simp only [hres, Bool.and_eq_true, Bool.not_eq_true'] at hr
      obtain ⟨⟨htruthy, hu⟩, hp⟩ := hr
      obtain ⟨user, userText, balance, balanceText, h1, h2, h3, h4⟩ := hd response hres htruthy
      have hcred := login_stores env net s response ⟨hu, hp⟩ hres htruthy
      obtain ⟨v1, v2, v3⟩ := loginSuccess_view env (jsTrim s.usernameValue) s.passwordValue
        response (makeApiCall "/login" "POST"
          (credentialsBody (jsTrim s.usernameValue) s.passwordValue) net s).1
        user balance userText balanceText h1 h2 h3 h4
      have hview : viewState (login env net s) = some ViewState.Banking := by
        unfold login
        simp only [hu, hp, hres, htruthy, makeApiCall] at v1 v2 v3 ⊢
        simp only [Bool.or_self, Bool.false_eq_true, ↓reduceIte]
        split <;> simp [viewState, showMessage, v1, v2, v3]
      exact Or.inr ⟨by rw [hcred]; simp, Or.inl hview⟩

theorem consistent_of_step (env : Builtins) (a : Action) (s : State)
    (hd : LoginDisplayable env a) (hs : Consistent s) : Consistent (step env a s) := by
  cases a with
  | setInput field value => exact consistent_of_setInput field value s hs
  | register net =>
    exact consistent_of_frame (register_frame net s).1 (register_frame net s).2.1 hs
  | login net => exact consistent_of_login env net s hd hs
  | logout => exact consistent_of_logout s
  | deposit net =>
    exact consistent_of_frame (deposit_frame env net s).1 (deposit_frame env net s).2.1 hs
  | withdraw net =>
    exact consistent_of_frame (withdraw_frame env net s).1 (withdraw_frame env net s).2.1 hs
  | getBalance net =>
    exact consistent_of_frame (getBalance_frame env net s).1 (getBalance_frame env net s).2.1 hs
  | getTransactions net => exact consistent_of_getTransactions env net s hs
  | hideTransactions => exact consistent_of_hideTransactions s hs

/-- Provided every truthy login response has a displayable `username` and a numeric
`balance`, every state reached from the initial page stores a session exactly when its
view is not `LoggedOut`, and its view is one of the three view states. -/
theorem consistent_of_run (env : Builtins) :
    ∀ (acts : List Action), (∀ a ∈ acts, LoginDisplayable env a) →
      ∀ s : State, Consistent s → Consistent (run env acts s) := by
  intro acts
  induction acts with
  | nil => intro _ s hs; exact hs
  | cons a rest ih =>
    intro hd s hs
    exact ih (fun b hb => hd b (List.mem_cons_of_mem a hb)) (step env a s)
      (consistent_of_step env a s (hd a (List.mem_cons_self a rest)) hs)

theorem consistent_initialState : Consistent initialState := Or.inl ⟨rfl, rfl⟩

/-! ## Transactions -/

theorem includesChars_iff (sub cs : List Char) : includesChars sub cs = true ↔ sub <:+: cs := by
  induction cs with
  | nil => simp [includesChars, List.isEmpty_iff]
  | cons c cs ih =>
    simp only [includesChars, Bool.or_eq_true, ih, List.infix_cons_iff,
      List.isPrefixOf_iff_prefix]

theorem includes_iff (s sub : String) : includes s sub = true ↔ sub.data <:+: s.data :=
  includesChars_iff sub.data s.data

set_option maxRecDepth 100000 in
theorem rowHtml_deposit (typeText dateText amountText : String) :
    rowHtml (rowStyle true) typeText dateText amountText
      = depositRow typeText dateText amountText := by
  apply String.ext
  simp [rowHtml, rowStyle, depositRow, String.data_append]

set_option maxRecDepth 100000 in
theorem rowHtml_withdrawal (typeText dateText amountText : String) :
    rowHtml (rowStyle false) typeText dateText amountText
      = withdrawalRow typeText dateText amountText := by
  apply String.ext
  simp [rowHtml, rowStyle, withdrawalRow, String.data_append]

set_option maxRecDepth 100000 in
theorem depositRow_ne_withdrawalRow (a b c a2 b2 c2 : String) :
    depositRow a b c ≠ withdrawalRow a2 b2 c2 := by
  intro h
  have h2 := congrArg String.data h
  simp [depositRow, withdrawalRow, String.data_append] at h2

theorem infix_of_eq {l p t whole : List Char} (h : whole = p ++ l ++ t) : l <:+: whole :=
  h ▸ List.infix_append p l t

set_option maxRecDepth 100000 in
theorem depositRow_item_class (a b c : String) :
    "class=\"transaction-item deposit\"".data <:+: (depositRow a b c).data := by
  apply infix_of_eq (p := "\n            <div ".data)
    (t := (">\n                <div class=\"transaction-details\">"
      ++ "\n                    <div class=\"transaction-type\">" ++ a ++ "</div>"
      ++ "\n                    <div class=\"transaction-date\">" ++ b ++ "</div>"
      ++ "\n                </div>"
      ++ "\n                <div class=\"transaction-amount positive\">"
      ++ "\n                    +$" ++ c
      ++ "\n                </div>"
      ++ "\n            </div>"
      ++ "\n        ").data)
  simp [depositRow, String.data_append]

set_option maxRecDepth 100000 in
theorem depositRow_amount_class (a b c : String) :
    "class=\"transaction-amount positive\"".data <:+: (depositRow a b c).data := by
  apply infix_of_eq (p := ("\n            <div class=\"transaction-item deposit\">"
      ++ "\n                <div class=\"transaction-details\">"
      ++ "\n                    <div class=\"transaction-type\">" ++ a ++ "</div>"
      ++ "\n                    <div class=\"transaction-date\">" ++ b ++ "</div>"
      ++ "\n                </div>"
      ++ "\n                <div ").data)
    (t := (">\n                    +$" ++ c
      ++ "\n                </div>"
      ++ "\n            </div>"
      ++ "\n        ").data)
  simp [depositRow, String.data_append]

set_option maxRecDepth 100000 in
theorem depositRow_amount (a b c : String) :
    ("+$" ++ c).data <:+: (depositRow a b c).data := by
  apply infix_of_eq (p := ("\n            <div class=\"transaction-item deposit\">"
      ++ "\n                <div class=\"transaction-details\">"
      ++ "\n                    <div class=\"transaction-type\">" ++ a ++ "</div>"
      ++ "\n                    <div class=\"transaction-date\">" ++ b ++ "</div>"
      ++ "\n                </div>"
      ++ "\n                <div class=\"transaction-amount positive\">"
      ++ "\n                    ").data)
    (t := ("\n                </div>" ++ "\n            </div>" ++ "\n        ").data)
  simp [depositRow, String.data_append]

set_option maxRecDepth 100000 in
theorem withdrawalRow_item_class (a b c : String) :
    "class=\"transaction-item withdrawal\"".data <:+: (withdrawalRow a b c).data := by
  apply infix_of_eq (p := "\n            <div ".data)
    (t := (">\n                <div class=\"transaction-details\">"
      ++ "\n                    <div class=\"transaction-type\">" ++ a ++ "</div>"
      ++ "\n                    <div class=\"transaction-date\">" ++ b ++ "</div>"
      ++ "\n                </div>"
      ++ "\n                <div class=\"transaction-amount negative\">"
      ++ "\n                    -$" ++ c
      ++ "\n                </div>"
      ++ "\n            </div>"
      ++ "\n        ").data)
  simp [withdrawalRow, String.data_append]

set_option maxRecDepth 100000 in
theorem withdrawalRow_amount_class (a b c : String) :
    "class=\"transaction-amount negative\"".data <:+: (withdrawalRow a b c).data := by
  apply infix_of_eq (p := ("\n            <div class=\"transaction-item withdrawal\">"
      ++ "\n                <div class=\"transaction-details\">"
      ++ "\n                    <div class=\"transaction-type\">" ++ a ++ "</div>"
      ++ "\n                    <div class=\"transaction-date\">" ++ b ++ "</div>"
      ++ "\n                </div>"
      ++ "\n                <div ").data)
    (t := (">\n                    -$" ++ c
      ++ "\n                </div>"
      ++ "\n            </div>"
      ++ "\n        ").data)
  simp [withdrawalRow, String.data_append]

set_option maxRecDepth 100000 in
theorem withdrawalRow_amount (a b c : String) :
    ("-$" ++ c).data <:+: (withdrawalRow a b c).data := by
  apply infix_of_eq (p := ("\n            <div class=\"transaction-item withdrawal\">"
      ++ "\n                <div class=\"transaction-details\">"
      ++ "\n                    <div class=\"transaction-type\">" ++ a ++ "</div>"
      ++ "\n                    <div class=\"transaction-date\">" ++ b ++ "</div>"
      ++ "\n                </div>"
      ++ "\n                <div class=\"transaction-amount negative\">"
      ++ "\n                    ").data)
    (t := ("\n                </div>" ++ "\n            </div>" ++ "\n        ").data)
  simp [withdrawalRow, String.data_append]

theorem renderTransaction_toJsVal (env : Builtins) (t : Transaction) :
    renderTransaction env t.toJsVal = Except.ok (expectedRow env t) := by
  by_cases h : "deposit".data <:+: (toLowerCase t.type).data
  · have hi : includes (toLowerCase t.type) "deposit" = true := (includes_iff _ _).mpr h
    simp [renderTransaction, isDepositOf, Transaction.toJsVal, getProp, lookupField,
      callToLowerCase, toStr, formatDate, newDate, callToFixed, expectedRow, hi, h,
      rowHtml_deposit]
  · have hi : includes (toLowerCase t.type) "deposit" = false := by
      cases hb : includes (toLowerCase t.type) "deposit" with
      | false => rfl
      | true => exact absurd ((includes_iff _ _).mp hb) h
    simp [renderTransaction, isDepositOf, Transaction.toJsVal, getProp, lookupField,
      callToLowerCase, toStr, formatDate, newDate, callToFixed, expectedRow, hi, h,
      rowHtml_withdrawal]

theorem renderAll_toJsVal (env : Builtins) (ts : List Transaction) :
    renderAll env (ts.map Transaction.toJsVal) = Except.ok (ts.map (expectedRow env)) := by
  induction ts with
  | nil => rfl
  | cons t rest ih => simp [renderAll, renderTransaction_toJsVal, ih]

/-! # Properties of the specification -/

/-- C1. With no stored session (`currentCredentials` is `null`), each of `deposit`,
`withdraw`, `getBalance` and `getTransactions` leaves the page exactly as it was except for
one appended notification of type `error`: no request is issued, session and sections are
untouched.  The notification is `Please login first` whenever the amount typed is valid
(and always for `getBalance` and `getTransactions`, which read no input). -/
theorem no_session_fails_locally (env : Builtins) (net : FetchOutcome) (s : State)
    (h : s.currentCredentials = none) :
    (∃ text, deposit env net s
          = { s with messages := s.messages ++ [{ text := text, type := "error" }] }
        ∧ (amountRejected (parseFloat s.depositAmountValue) = false
            → text = "Please login first"))
    ∧ (∃ text, withdraw env net s
          = { s with messages := s.messages ++ [{ text := text, type := "error" }] }
        ∧ (amountRejected (parseFloat s.withdrawAmountValue) = false
            → text = "Please login first"))
    ∧ getBalance env net s
        = { s with messages := s.messages ++ [{ text := "Please login first", type := "error" }] }
    ∧ getTransactions env net s
        = { s with messages := s.messages ++ [{ text := "Please login first", type := "error" }] } := by
  refine ⟨?_, ?_, ?_, ?_⟩
  · by_cases hr : amountRejected (parseFloat s.depositAmountValue) = true
    · exact ⟨"Please enter a valid amount", by simp [deposit, hr, showMessage], by simp [hr]⟩
    · exact ⟨"Please login first", by simp [deposit, hr, h, showMessage], fun _ => rfl⟩
  · by_cases hr : amountRejected (parseFloat s.withdrawAmountValue) = true
    · exact ⟨"Please enter a valid amount", by simp [withdraw, hr, showMessage], by simp [hr]⟩
    · exact ⟨"Please login first", by simp [withdraw, hr, h, showMessage], fun _ => rfl⟩
  · simp [getBalance, h, showMessage]
  · simp [getTransactions, h, showMessage]

/-- Witness of C1 on the freshly loaded page, whatever the network would answer: the four
operations issue no request and `getBalance` posts `Please login first`. -/
theorem no_session_fails_locally_witness :
    initialState.currentCredentials = none
    ∧ (getBalance exampleBuiltins (jsonResponse JsVal.null) initialState).apiCalls.length = 0
    ∧ (getBalance exampleBuiltins (jsonResponse JsVal.null) initialState).messages
        = [{ text := "Please login first", type := "error" }] := by
  have h := no_session_fails_locally exampleBuiltins (jsonResponse JsVal.null) initialState rfl
  refine ⟨rfl, ?_, ?_⟩
  · rw [h.2.2.1]; rfl
  · rw [h.2.2.1]; rfl

/-- C2 (as amended). Whatever the state, `deposit` and `withdraw` called with an amount
input that `parseFloat` reads as `NaN` (no number can be read from its start) or as a
number `<= 0` leave the page exactly as it was except for the appended error notification
`Please enter a valid amount`: no request is issued and session, sections and displayed
balance are unchanged. -/
theorem invalid_amount_rejected (env : Builtins) (net : FetchOutcome) (s : State) :
    (((parseFloat s.depositAmountValue).isNaN = true
        ∨ (parseFloat s.depositAmountValue).leZero = true) →
      deposit env net s
        = { s with messages := s.messages
              ++ [{ text := "Please enter a valid amount", type := "error" }] })
    ∧ (((parseFloat s.withdrawAmountValue).isNaN = true
        ∨ (parseFloat s.withdrawAmountValue).leZero = true) →
      withdraw env net s
        = { s with messages := s.messages
              ++ [{ text := "Please enter a valid amount", type := "error" }] }) := by
  constructor
  · intro h
    have hr : amountRejected (parseFloat s.depositAmountValue) = true := by
      rcases h with h | h <;> simp [amountRejected, JsNumber.truthy, h]
    simp [deposit, hr, showMessage]
  · intro h
    have hr : amountRejected (parseFloat s.withdrawAmountValue) = true := by
      rcases h with h | h <;> simp [amountRejected, JsNumber.truthy, h]
    simp [withdraw, hr, showMessage]

/-- Witness of C2 (as amended) in a logged-in page: depositing `abc` and withdrawing `-5`
are both rejected without a request. -/
theorem invalid_amount_rejected_witness :
    (parseFloat (setInput InputField.depositAmount "abc" aliceBanking).depositAmountValue).isNaN
        = true
    ∧ (parseFloat (setInput InputField.withdrawAmount "-5" aliceBanking).withdrawAmountValue).leZero
        = true
    ∧ (deposit exampleBuiltins (jsonResponse JsVal.null)
        (setInput InputField.depositAmount "abc" aliceBanking)).apiCalls.length
        = aliceBanking.apiCalls.length
    ∧ (withdraw exampleBuiltins (jsonResponse JsVal.null)
        (setInput InputField.withdrawAmount "-5" aliceBanking)).apiCalls.length
        = aliceBanking.apiCalls.length := by
  refine ⟨by decide, by decide, ?_, ?_⟩
  · rw [(invalid_amount_rejected exampleBuiltins (jsonResponse JsVal.null)
      (setInput InputField.depositAmount "abc" aliceBanking)).1 (Or.inl (by decide))]
    rfl
  · rw [(invalid_amount_rejected exampleBuiltins (jsonResponse JsVal.null)
      (setInput InputField.withdrawAmount "-5" aliceBanking)).2 (Or.inr (by decide))]
    rfl

/-- Counterexample to C2 as stated: the input `12abc` is not numeric, yet `parseFloat`
reads its leading `12`, so `deposit` and `withdraw` accept it and issue their request with
amount `12`. -/
theorem numeric_start_is_accepted :
    isNumericText "12abc" = false
    ∧ parseFloat "12abc" = JsNumber.decimal false 12 0
    ∧ amountRejected (parseFloat "12abc") = false
    ∧ (requestsSince aliceBanking
        (deposit exampleBuiltins (jsonResponse JsVal.null)
          (setInput InputField.depositAmount "12abc" aliceBanking))).map
        (fun r => r.endpoint) = ["/deposit"]
    ∧ (requestsSince aliceBanking
        (withdraw exampleBuiltins (jsonResponse JsVal.null)
          (setInput InputField.withdrawAmount "12abc" aliceBanking))).map
        (fun r => r.endpoint) = ["/withdraw"]
    ∧ (deposit exampleBuiltins (jsonResponse JsVal.null)
        (setInput InputField.depositAmount "12abc" aliceBanking)).messages
        = aliceBanking.messages := by
  decide

/-- C3. For every state whose inputs pass the validation of `login`, a `login` whose API
call succeeds with a JSON payload, followed by `logout`, ends with `currentUser` and
`currentCredentials` both `null` and the view `LoggedOut`; and `logout` called in view
`BankingWithTransactions` ends the same way. -/
theorem login_then_logout_clears (env : Builtins) (net : FetchOutcome) (payload : JsVal)
    (s : State) (_hvalid : loginAccepted s) (_hjson : succeedsWithJson net payload) :
    (logout (login env net s)).currentCredentials = none
    ∧ (logout (login env net s)).currentUser = JsVal.null
    ∧ viewState (logout (login env net s)) = some ViewState.LoggedOut
    ∧ (logout (login env net s)).loginHidden = false
    ∧ (logout (login env net s)).bankingHidden = true
    ∧ (logout (login env net s)).transactionsHidden = true
    ∧ ∀ t : State, viewState t = some ViewState.BankingWithTransactions →
        (logout t).currentCredentials = none ∧ (logout t).currentUser = JsVal.null
          ∧ viewState (logout t) = some ViewState.LoggedOut := by
  exact ⟨rfl, rfl, rfl, rfl, rfl, rfl, fun t _ => ⟨rfl, rfl, rfl⟩⟩

/-- Witness of C3: `alice` logs in (a session is stored, the view is `Banking`) and logs
out. -/
theorem login_then_logout_clears_witness :
    loginAccepted aliceForm
    ∧ succeedsWithJson
        (jsonResponse (JsVal.obj [("username", JsVal.str "alice"),
          ("balance", JsVal.num (JsNumber.decimal false 100 0))]))
        (JsVal.obj [("username", JsVal.str "alice"),
          ("balance", JsVal.num (JsNumber.decimal false 100 0))])
    ∧ aliceBanking.currentCredentials = some { username := "alice", password := "pw" }
    ∧ (logout aliceBanking).currentCredentials = none
    ∧ viewState (logout aliceBanking) = some ViewState.LoggedOut :=
  have hv : loginAccepted aliceForm := by unfold loginAccepted; decide
  have hj : succeedsWithJson
      (jsonResponse (JsVal.obj [("username", JsVal.str "alice"),
        ("balance", JsVal.num (JsNumber.decimal false 100 0))]))
      (JsVal.obj [("username", JsVal.str "alice"),
        ("balance", JsVal.num (JsNumber.decimal false 100 0))]) :=
    ⟨200, "OK", "application/json", rfl, by decide⟩
  have h := login_then_logout_clears exampleBuiltins _ _ aliceForm hv hj
  ⟨hv, hj, rfl, h.1, h.2.2.1⟩

/-- C4 (as amended). After a `login` whose inputs pass validation and whose API call
succeeds with a truthy JSON payload, the stored credential is exactly the trimmed user name
and the password sent to `/login`, whatever the payload holds; and as long as no `logout`
and no further successful `login` runs, the credential stays and every request then issued
to `/deposit`, `/withdraw`, `/balance` or `/transactions` carries that user name and
password in its body. -/
theorem stored_credentials_resent (env : Builtins) (net : FetchOutcome) (payload : JsVal)
    (s : State) (hvalid : loginAccepted s) (hjson : succeedsWithJson net payload)
    (htruthy : payload.truthy = true) :
    (login env net s).currentCredentials
        = some { username := jsTrim s.usernameValue, password := s.passwordValue }
    ∧ requestsSince s (login env net s)
        = [{ endpoint := "/login", method := "POST",
             data := credentialsBody (jsTrim s.usernameValue) s.passwordValue }]
    ∧ ∀ acts : List Action, SessionKept env acts (login env net s) →
        (run env acts (login env net s)).currentCredentials
            = some { username := jsTrim s.usernameValue, password := s.passwordValue }
        ∧ ∀ r ∈ requestsSince (login env net s) (run env acts (login env net s)),
            authenticatedEndpoint r.endpoint = true →
              RequestCarries (jsTrim s.usernameValue) s.passwordValue r := by
  have hres := apiResult_of_succeedsWithJson hjson
  have hcred := login_stores env net s payload hvalid hres htruthy
  refine ⟨hcred, ?_, ?_⟩
  · rcases login_requests env net s with h | h
    · exfalso
      have hl := congrArg List.length h
      unfold login at hl
      unfold loginAccepted at hvalid
      simp only [makeApiCall, hvalid.1, hvalid.2, hres, htruthy] at hl
      have hs := (loginSuccess_stores env (jsTrim s.usernameValue) s.passwordValue payload
        (makeApiCall "/login" "POST"
          (credentialsBody (jsTrim s.usernameValue) s.passwordValue) net s).1 htruthy).2
      simp only [makeApiCall] at hs
      simp only [Bool.or_self, Bool.false_eq_true, ↓reduceIte] at hl
      split at hl <;> simp_all [showMessage]
    · simp [requestsSince, h]
  · intro acts hkept
    obtain ⟨hfin, extra, he, hall⟩ := run_sends_stored env _ acts (login env net s) hcred hkept
    refine ⟨hfin, ?_⟩
    intro r hr hauth
    have : requestsSince (login env net s) (run env acts (login env net s)) = extra := by
      simp [requestsSince, he]
    rw [this] at hr
    exact hall r hr hauth

/-- Witness of C4 (as amended): `alice` logs in, the response names the user `bob`, and the
deposit that follows is sent with `alice` and `pw`. -/
theorem stored_credentials_resent_witness :
    loginAccepted aliceForm
    ∧ succeedsWithJson
        (jsonResponse (JsVal.obj [("username", JsVal.str "bob"),
          ("balance", JsVal.num (JsNumber.decimal false 100 0))]))
        (JsVal.obj [("username", JsVal.str "bob"),
          ("balance", JsVal.num (JsNumber.decimal false 100 0))])
    ∧ (login exampleBuiltins
        (jsonResponse (JsVal.obj [("username", JsVal.str "bob"),
          ("balance", JsVal.num (JsNumber.decimal false 100 0))])) aliceForm).currentCredentials
        = some { username := "alice", password := "pw" }
    ∧ (requestsSince
          (login exampleBuiltins
            (jsonResponse (JsVal.obj [("username", JsVal.str "bob"),
              ("balance", JsVal.num (JsNumber.decimal false 100 0))])) aliceForm)
          (run exampleBuiltins
            [Action.setInput InputField.depositAmount "50",
              Action.deposit (jsonResponse (JsVal.obj
                [("newBalance", JsVal.num (JsNumber.decimal false 150 0))]))]
            (login exampleBuiltins
              (jsonResponse (JsVal.obj [("username", JsVal.str "bob"),
                ("balance", JsVal.num (JsNumber.decimal false 100 0))])) aliceForm))).map
        (fun r => r.endpoint) = ["/deposit"]
    ∧ ∀ r ∈ requestsSince
          (login exampleBuiltins
            (jsonResponse (JsVal.obj [("username", JsVal.str "bob"),
              ("balance", JsVal.num (JsNumber.decimal false 100 0))])) aliceForm)
          (run exampleBuiltins
            [Action.setInput InputField.depositAmount "50",
              Action.deposit (jsonResponse (JsVal.obj
                [("newBalance", JsVal.num (JsNumber.decimal false 150 0))]))]
            (login exampleBuiltins
              (jsonResponse (JsVal.obj [("username", JsVal.str "bob"),
                ("balance", JsVal.num (JsNumber.decimal false 100 0))])) aliceForm)),
        authenticatedEndpoint r.endpoint = true → RequestCarries "alice" "pw" r := by
  have hv : loginAccepted aliceForm := by unfold loginAccepted; decide
  have hj : succeedsWithJson
      (jsonResponse (JsVal.obj [("username", JsVal.str "bob"),
        ("balance", JsVal.num (JsNumber.decimal false 100 0))]))
      (JsVal.obj [("username", JsVal.str "bob"),
        ("balance", JsVal.num (JsNumber.decimal false 100 0))]) :=
    ⟨200, "OK", "application/json", rfl, by decide⟩
  have h := stored_credentials_resent exampleBuiltins _ _ aliceForm hv hj rfl
  exact ⟨hv, hj, h.1, rfl,
    (h.2.2
      [Action.setInput InputField.depositAmount "50",
        Action.deposit (jsonResponse (JsVal.obj
          [("newBalance", JsVal.num (JsNumber.decimal false 150 0))]))]
      (And.intro rfl (And.intro rfl True.intro))).2⟩

/-- Counterexample to C4 as stated: the login call succeeds with the JSON payload `false`,
and no credential is stored. -/
theorem falsy_payload_stores_nothing :
    loginAccepted aliceForm
    ∧ succeedsWithJson (jsonResponse (JsVal.bool false)) (JsVal.bool false)
    ∧ (login exampleBuiltins (jsonResponse (JsVal.bool false)) aliceForm).currentCredentials
        = none :=
  ⟨by unfold loginAccepted; decide, ⟨200, "OK", "application/json", rfl, by decide⟩, rfl⟩

/-- C5 (the code at the failing input). From the initial page, `alice` logs in and the API
answers with a JSON object that has no `balance`: whatever the engine, the credentials are
stored while the view is still `LoggedOut`, so the state is not consistent; a following
`getTransactions` that returns an empty array then shows the transactions section next to
the login section. -/
theorem session_stored_while_logged_out (env : Builtins) :
    (run env loginWithoutBalance initialState).currentCredentials
        = some { username := "alice", password := "pw" }
    ∧ viewState (run env loginWithoutBalance initialState) = some ViewState.LoggedOut
    ∧ ¬ Consistent (run env loginWithoutBalance initialState)
    ∧ (run env (loginWithoutBalance ++ [Action.getTransactions (jsonResponse (JsVal.arr []))])
        initialState).loginHidden = false
    ∧ (run env (loginWithoutBalance ++ [Action.getTransactions (jsonResponse (JsVal.arr []))])
        initialState).transactionsHidden = false := by
  have h1 : (run env loginWithoutBalance initialState).currentCredentials
      = some { username := "alice", password := "pw" } := rfl
  have h2 : viewState (run env loginWithoutBalance initialState) = some ViewState.LoggedOut :=
    rfl
  refine ⟨h1, h2, ?_, rfl, rfl⟩
  unfold Consistent
  rw [h1, h2]
  simp

/-- C6. In a state with a stored session, when the API call of `deposit`, `withdraw`,
`getBalance` or `getTransactions` fails (transport failure or non-success status), the
operation returns normally and the page is exactly as before except that the request has
been recorded and one notification of type `error` has been appended: sections, session and
displayed balance are unchanged.  (`deposit` and `withdraw` make the call when their amount
is valid.) -/
theorem failed_call_only_posts_error (env : Builtins) (net : FetchOutcome) (s : State)
    (c : Credentials) (hs : s.currentCredentials = some c) (hf : net.fails = true) :
    ∃ message, apiResult net = Except.error message
      ∧ (amountRejected (parseFloat s.depositAmountValue) = false →
          deposit env net s
            = { s with
                apiCalls := s.apiCalls ++ [{ endpoint := "/deposit", method := "POST", data := amountBody c.username c.password (parseFloat s.depositAmountValue) }],
                messages := s.messages ++ [{ text := "Deposit failed: " ++ message, type := "error" }] })
      ∧ (amountRejected (parseFloat s.withdrawAmountValue) = false →
          withdraw env net s
            = { s with
                apiCalls := s.apiCalls ++ [{ endpoint := "/withdraw", method := "POST", data := amountBody c.username c.password (parseFloat s.withdrawAmountValue) }],
                messages := s.messages ++ [{ text := "Withdrawal failed: " ++ message, type := "error" }] })
      ∧ getBalance env net s
          = { s with
              apiCalls := s.apiCalls ++ [{ endpoint := "/balance", method := "POST", data := credentialsBody c.username c.password }],
              messages := s.messages ++ [{ text := "Failed to get balance: " ++ message, type := "error" }] }
      ∧ getTransactions env net s
          = { s with
              apiCalls := s.apiCalls ++ [{ endpoint := "/transactions", method := "POST", data := credentialsBody c.username c.password }],
              messages := s.messages ++ [{ text := "Failed to get transactions: " ++ message, type := "error" }] } := by
  have hres : ∃ message, apiResult net = Except.error message := by
    cases net with
    | rejected message => exact ⟨message, rfl⟩
    | response ok status statusText contentType json =>
      simp only [FetchOutcome.fails, Bool.not_eq_true'] at hf
      subst hf
      exact ⟨_, rfl⟩
  obtain ⟨message, hm⟩ := hres
  refine ⟨message, hm, ?_, ?_, ?_, ?_⟩
  · intro hr
    simp [deposit, hr, hs, makeApiCall, hm, showMessage]
  · intro hr
    simp [withdraw, hr, hs, makeApiCall, hm, showMessage]
  · simp [getBalance, hs, makeApiCall, hm, showMessage]
  · simp [getTransactions, hs, makeApiCall, hm, showMessage]

/-- Witness of C6: in the page of `alice`, a balance request answered with status 500 keeps
view, session and displayed balance, and posts one error. -/
theorem failed_call_only_posts_error_witness :
    aliceBanking.currentCredentials = some { username := "alice", password := "pw" }
    ∧ (FetchOutcome.response false 500 "Internal Server Error" none
        (Except.ok JsVal.null)).fails = true
    ∧ viewState (getBalance exampleBuiltins
        (FetchOutcome.response false 500 "Internal Server Error" none (Except.ok JsVal.null))
        aliceBanking) = some ViewState.Banking
    ∧ (getBalance exampleBuiltins
        (FetchOutcome.response false 500 "Internal Server Error" none (Except.ok JsVal.null))
        aliceBanking).messages
        = aliceBanking.messages
          ++ [{ text := "Failed to get balance: HTTP 500: Internal Server Error",
                type := "error" }] := by
  obtain ⟨message, hm, _, _, hb, _⟩ :=
    failed_call_only_posts_error exampleBuiltins
      (FetchOutcome.response false 500 "Internal Server Error" none (Except.ok JsVal.null))
      aliceBanking { username := "alice", password := "pw" } rfl rfl
  have hmsg : message = "HTTP 500: Internal Server Error" := by
    have : apiResult (FetchOutcome.response false 500 "Internal Server Error" none
        (Except.ok JsVal.null)) = Except.error "HTTP 500: Internal Server Error" := rfl
    rw [this] at hm
    exact (Except.error.inj hm).symm
  subst hmsg
  refine ⟨rfl, rfl, ?_, ?_⟩
  · rw [hb]; rfl
  · rw [hb]; rfl

/-- C7 (as amended). In view `Banking` with a stored session, when the API call of
`getTransactions` succeeds: an empty array switches the view to `BankingWithTransactions`
with the placeholder `No transactions found.` in the list and posts no notification; a
result that is not an array leaves the view `Banking` and posts the info notification
`No transactions found`; and the view becomes `BankingWithTransactions` only when the
result is an array. -/
theorem getTransactions_view (env : Builtins) (net : FetchOutcome) (s : State)
    (c : Credentials) (payload : JsVal) (hs : s.currentCredentials = some c)
    (hv : viewState s = some ViewState.Banking) (hres : apiResult net = Except.ok payload) :
    (payload = JsVal.arr [] →
        viewState (getTransactions env net s) = some ViewState.BankingWithTransactions
        ∧ (getTransactions env net s).transactionsListHtml = "<p>No transactions found.</p>"
        ∧ (getTransactions env net s).messages = s.messages)
    ∧ (payload.isArray = false →
        viewState (getTransactions env net s) = some ViewState.Banking
        ∧ (getTransactions env net s).messages
            = s.messages ++ [{ text := "No transactions found", type := "info" }])
    ∧ (viewState (getTransactions env net s) = some ViewState.BankingWithTransactions →
        payload.isArray = true) := by
  have hflags : s.loginHidden = true ∧ s.bankingHidden = false ∧ s.transactionsHidden = true := by
    unfold viewState at hv
    cases hl : s.loginHidden <;> cases hb : s.bankingHidden
      <;> cases ht : s.transactionsHidden <;> simp_all
  obtain ⟨hl, hb, ht⟩ := hflags
  refine ⟨?_, ?_, ?_⟩
  · intro hp
    subst hp
    simp [getTransactions, hs, makeApiCall, hres, JsVal.truthy, JsVal.isArray, JsVal.items,
      displayTransactions, showTransactionsSection, viewState, hl, hb]
  · intro hp
    simp [getTransactions, hs, makeApiCall, hres, hp, showMessage, viewState, hl, hb, ht]
  · intro hview
    cases hp : payload.isArray with
    | true => rfl
    | false =>
      simp [getTransactions, hs, makeApiCall, hres, hp, showMessage, viewState, hl, hb, ht]
        at hview

/-- Witness of C7 (as amended): the page of `alice` and a successful call that returns the
empty array. -/
theorem getTransactions_view_witness :
    aliceBanking.currentCredentials = some { username := "alice", password := "pw" }
    ∧ viewState aliceBanking = some ViewState.Banking
    ∧ apiResult (jsonResponse (JsVal.arr [])) = Except.ok (JsVal.arr [])
    ∧ (getTransactions exampleBuiltins (jsonResponse (JsVal.arr [])) aliceBanking).transactionsListHtml
        = "<p>No transactions found.</p>" :=
  ⟨rfl, rfl, rfl,
    ((getTransactions_view exampleBuiltins (jsonResponse (JsVal.arr [])) aliceBanking
      { username := "alice", password := "pw" } (JsVal.arr []) rfl rfl rfl).1 rfl).2.1⟩

/-- Counterexample to C7 as stated: in view `Banking` with a stored session, a successful
`getTransactions` that returns the empty array shows the transactions section (view
`BankingWithTransactions`) and posts no notification. -/
theorem empty_array_shows_transactions :
    aliceBanking.currentCredentials = some { username := "alice", password := "pw" }
    ∧ viewState aliceBanking = some ViewState.Banking
    ∧ apiResult (jsonResponse (JsVal.arr [])) = Except.ok (JsVal.arr [])
    ∧ viewState (getTransactions exampleBuiltins (jsonResponse (JsVal.arr [])) aliceBanking)
        = some ViewState.BankingWithTransactions
    ∧ (getTransactions exampleBuiltins (jsonResponse (JsVal.arr [])) aliceBanking).transactionsHidden
        = false
    ∧ (getTransactions exampleBuiltins (jsonResponse (JsVal.arr [])) aliceBanking).messages
        = aliceBanking.messages :=
  ⟨rfl, rfl, rfl, rfl, rfl, rfl⟩

/-- C8. For every non-empty list of transactions, `displayTransactions` writes one row per
transaction, in order, and for every transaction of the list the row written is rendered as
a deposit if and only if its type, lower-cased, contains `deposit`, and as a withdrawal
otherwise.  A row rendered as a deposit carries the classes `deposit` and `positive` and
the amount prefixed with `+`; a row rendered as a withdrawal carries the classes
`withdrawal` and `negative` and the amount prefixed with `-`; the two never coincide.  Type
`DEPOSIT` is rendered as a deposit and type `Withdrawal` as a withdrawal. -/
theorem rows_follow_classification (env : Builtins) (ts : List Transaction) (s : State)
    (hne : ts ≠ []) :
    displayTransactions env (ts.map Transaction.toJsVal) s
        = Except.ok { s with transactionsListHtml := String.join (ts.map (expectedRow env)) }
    ∧ (∀ t ∈ ts, ∃ row, renderTransaction env t.toJsVal = Except.ok row
        ∧ (row = depositRow t.type (dateToLocaleString env (env.dateParse t.timestamp))
              (env.toFixed t.amount 2)
            ↔ "deposit".data <:+: (toLowerCase t.type).data)
        ∧ (row = withdrawalRow t.type (dateToLocaleString env (env.dateParse t.timestamp))
              (env.toFixed t.amount 2)
            ↔ ¬ "deposit".data <:+: (toLowerCase t.type).data))
    ∧ (∀ typeText dateText amountText : String,
        "class=\"transaction-item deposit\"".data
            <:+: (depositRow typeText dateText amountText).data
        ∧ "class=\"transaction-amount positive\"".data
            <:+: (depositRow typeText dateText amountText).data
        ∧ ("+$" ++ amountText).data <:+: (depositRow typeText dateText amountText).data
        ∧ "class=\"transaction-item withdrawal\"".data
            <:+: (withdrawalRow typeText dateText amountText).data
        ∧ "class=\"transaction-amount negative\"".data
            <:+: (withdrawalRow typeText dateText amountText).data
        ∧ ("-$" ++ amountText).data <:+: (withdrawalRow typeText dateText amountText).data)
    ∧ (∀ a b c a2 b2 c2 : String, depositRow a b c ≠ withdrawalRow a2 b2 c2)
    ∧ (∀ amount timestamp,
        renderTransaction env
            (Transaction.toJsVal { type := "DEPOSIT", amount := amount, timestamp := timestamp })
          = Except.ok (depositRow "DEPOSIT" (dateToLocaleString env (env.dateParse timestamp))
              (env.toFixed amount 2)))
    ∧ (∀ amount timestamp,
        renderTransaction env
            (Transaction.toJsVal { type := "Withdrawal", amount := amount, timestamp := timestamp })
          = Except.ok (withdrawalRow "Withdrawal"
              (dateToLocaleString env (env.dateParse timestamp)) (env.toFixed amount 2))) := by
  refine ⟨?_, ?_, ?_, depositRow_ne_withdrawalRow, ?_, ?_⟩
  · simp [displayTransactions, hne, renderAll_toJsVal]
  · intro t _
    refine ⟨expectedRow env t, renderTransaction_toJsVal env t, ?_, ?_⟩
    · by_cases h : "deposit".data <:+: (toLowerCase t.type).data
      · simp [expectedRow, h]
      · simp only [expectedRow, h, if_false, iff_false]
        exact fun heq => depositRow_ne_withdrawalRow _ _ _ _ _ _ heq.symm
    · by_cases h : "deposit".data <:+: (toLowerCase t.type).data
      · simp only [expectedRow, h, if_true, not_true_eq_false, iff_false]
        exact depositRow_ne_withdrawalRow _ _ _ _ _ _
      · simp [expectedRow, h]
  · intro a b c
    exact ⟨depositRow_item_class a b c, depositRow_amount_class a b c, depositRow_amount a b c,
      withdrawalRow_item_class a b c, withdrawalRow_amount_class a b c,
      withdrawalRow_amount a b c⟩
  · intro amount timestamp
    rw [renderTransaction_toJsVal]
    have h : "deposit".data <:+: (toLowerCase "DEPOSIT").data := by decide
    simp [expectedRow, h]
  · intro amount timestamp
    rw [renderTransaction_toJsVal]
    have h : ¬ "deposit".data <:+: (toLowerCase "Withdrawal").data := by decide
    simp [expectedRow, h]

/-- Witness of C8: a list holding a `DEPOSIT` and a `Withdrawal`; the markup written is the
deposit row followed by the withdrawal row. -/
theorem rows_follow_classification_witness :
    ([{ type := "DEPOSIT", amount := JsNumber.decimal false 50 0, timestamp := "T" },
      { type := "Withdrawal", amount := JsNumber.decimal false 20 0, timestamp := "T" }]
        : List Transaction) ≠ []
    ∧ displayTransactions exampleBuiltins
        (([{ type := "DEPOSIT", amount := JsNumber.decimal false 50 0, timestamp := "T" },
          { type := "Withdrawal", amount := JsNumber.decimal false 20 0, timestamp := "T" }]
            : List Transaction).map Transaction.toJsVal) initialState
        = Except.ok { initialState with
            transactionsListHtml := String.join
              (([{ type := "DEPOSIT", amount := JsNumber.decimal false 50 0, timestamp := "T" },
                { type := "Withdrawal", amount := JsNumber.decimal false 20 0, timestamp := "T" }]
                  : List Transaction).map (expectedRow exampleBuiltins)) }
    ∧ expectedRow exampleBuiltins
        { type := "DEPOSIT", amount := JsNumber.decimal false 50 0, timestamp := "T" }
        = depositRow "DEPOSIT" "Invalid Date" "0.00"
    ∧ expectedRow exampleBuiltins
        { type := "Withdrawal", amount := JsNumber.decimal false 20 0, timestamp := "T" }
        = withdrawalRow "Withdrawal" "Invalid Date" "0.00" :=
  ⟨List.cons_ne_nil _ _,
    (rows_follow_classification exampleBuiltins _ initialState (List.cons_ne_nil _ _)).1,
    by
      have h : "deposit".data <:+: (toLowerCase "DEPOSIT").data := by decide
      simp [expectedRow, h, exampleBuiltins, dateToLocaleString],
    by
      have h : ¬ "deposit".data <:+: (toLowerCase "Withdrawal").data := by decide
      simp [expectedRow, h, exampleBuiltins, dateToLocaleString]⟩

/-- C9 (as amended). Calling `logout` twice gives the same stored session and the same view
as calling it once, but the second call appends one more notification
`Logged out successfully`: it changes nothing else. -/
theorem logout_twice (s : State) :
    (logout (logout s)).currentUser = (logout s).currentUser
    ∧ (logout (logout s)).currentCredentials = (logout s).currentCredentials
    ∧ viewState (logout (logout s)) = viewState (logout s)
    ∧ logout (logout s)
        = { logout s with
            messages := (logout s).messages
              ++ [{ text := "Logged out successfully", type := "info" }] } :=
  ⟨rfl, rfl, rfl, rfl⟩

/-- Counterexample to C9 as stated: on the initial page the first `logout` leaves no session,
and the second `logout` still changes the notification list. -/
theorem second_logout_posts_again :
    (logout initialState).currentCredentials = none
    ∧ (logout (logout initialState)).messages ≠ (logout initialState).messages
    ∧ (logout (logout initialState)).messages.length = 2 := by
  decide

/-- C10 (the code on an unparseable string). When the string cannot be parsed as a date,
`formatDate` returns the text `Invalid Date`, not its argument: `new Date` does not throw,
so the `catch` branch that would return the argument is not taken. -/
theorem formatDate_unparseable (env : Builtins) (dateString : String)
    (h : env.dateParse dateString = none) :
    formatDate env (JsVal.str dateString) = JsVal.str "Invalid Date"
    ∧ (dateString ≠ "Invalid Date" →
        formatDate env (JsVal.str dateString) ≠ JsVal.str dateString) := by
  have h1 : formatDate env (JsVal.str dateString) = JsVal.str "Invalid Date" := by
    simp [formatDate, newDate, h, dateToLocaleString]
  refine ⟨h1, ?_⟩
  intro hne heq
  rw [h1] at heq
  exact hne (JsVal.str.inj heq).symm

/-- Witness of C10 on the string `not-a-date`. -/
theorem formatDate_unparseable_witness :
    exampleBuiltins.dateParse "not-a-date" = none
    ∧ formatDate exampleBuiltins (JsVal.str "not-a-date") = JsVal.str "Invalid Date" :=
  ⟨rfl, (formatDate_unparseable exampleBuiltins "not-a-date" rfl).1⟩

end Banking
